import Mathlib

/-!
Verification development for the ai-dial-content-generation repository.

The repository consists of three demo workflow scripts:
  * `task/image_to_text/task_dial_itt.py` — upload an image to the DIAL
    bucket, ask several models to describe it;
  * `task/text_to_image/task_tti.py` — ask image-generation models for
    pictures and persist the returned attachments locally;
  * `task/image_to_text/openai/task_openai_itt.py` — describe a local image
    passed inline as a base64 data URL, and a remote image by URL.

The definitions below are a shallow embedding of those scripts.  Network
effects (bucket upload, bucket download, chat completion) are modelled by
environment records supplying the outcome of each call, in the order the
script issues them; the scripts themselves become pure functions from such
an environment to the observable trace (log events, completion-call records,
files written).  Python `datetime.now()` timestamps are supplied by the
environment as opaque strings.  File-system paths are modelled as lists of
path components; `Path.parent` is `List.dropLast`.
-/

/-- Role of a chat message (`task/_models/role.py` is not part of the source
set).  Modelled from the spec: enumerated value `user`, `assistant`,
`system`. -/
inductive Role
  | user
  | assistant
  | system
deriving DecidableEq

/-- Attachment record (`task/_models/custom_content.py` is not part of the
source set).  Modelled from the spec: a reference to a binary resource with
title (display name), URL and MIME type, each of which may be absent.
Absent and empty-string values are both falsy in the Python truthiness
checks the scripts perform. -/
structure Attachment where
  title : Option String := none
  url : Option String := none
  type : Option String := none
deriving DecidableEq

/-- Python truthiness of an optional string: `None` and `""` are falsy. -/
def truthy : Option String → Bool
  | none => false
  | some s => !(s == "")

/-- Custom content of a message or a response (modelled from the spec: a
list of attachments). -/
structure CustomContent where
  attachments : List Attachment
deriving DecidableEq

/-- Chat message (`task/_models/message.py` is not part of the source set).
Modelled from the spec: a role, plain-text content, optional custom content
(attachments). -/
structure Message where
  role : Role
  content : String
  custom_content : Option CustomContent := none
deriving DecidableEq

/-- Completion response (modelled from the spec: response text plus optional
custom content holding generated attachments). -/
structure Response where
  content : String
  custom_content : Option CustomContent := none
deriving DecidableEq

/-!  ## Path model

Paths are lists of components rooted at an abstract filesystem root; the
repository checkout directory is an arbitrary component list `root`.
`Path.parent` drops the last component. -/

/-- `Path.parent` on the component-list model of paths. -/
def parentDir (p : List String) : List String := p.dropLast

/-- Location of `task/text_to_image/task_tti.py` inside a checkout at
`root`. -/
def ttiFile (root : List String) : List String :=
  root ++ ["task", "text_to_image", "task_tti.py"]

/-- Location of `task/image_to_text/openai/task_openai_itt.py` inside a
checkout at `root`. -/
def openaiIttFile (root : List String) : List String :=
  root ++ ["task", "image_to_text", "openai", "task_openai_itt.py"]

/-- Location of `task/image_to_text/task_dial_itt.py` inside a checkout at
`root`. -/
def dialIttFile (root : List String) : List String :=
  root ++ ["task", "image_to_text", "task_dial_itt.py"]

/-- The project root as the source itself computes it:
`task_openai_itt.py` line 11, `project_root = Path(__file__).parent.parent.parent.parent`. -/
def project_root (root : List String) : List String :=
  parentDir (parentDir (parentDir (parentDir (openaiIttFile root))))

/-- The output directory of generated-image persistence, as computed by
`task_tti.py` line 43: `Path(__file__).parent.parent.parent / "generated_images"`. -/
def outputDir (root : List String) : List String :=
  parentDir (parentDir (parentDir (ttiFile root))) ++ ["generated_images"]

/-- Follows the wording of the spec (for comparison with the code): two
paths are siblings when they share the same parent directory. -/
def siblingOf (p q : List String) : Prop := parentDir p = parentDir q

theorem dropLast_append_singleton (l : List String) (a : String) :
    (l ++ [a]).dropLast = l := by
  simp

theorem project_root_eq (root : List String) : project_root root = root := by
  unfold project_root openaiIttFile parentDir
  have : root ++ ["task", "image_to_text", "openai", "task_openai_itt.py"] =
      (((root ++ ["task"]) ++ ["image_to_text"]) ++ ["openai"]) ++ ["task_openai_itt.py"] := by
    simp
  rw [this]
  simp

theorem outputDir_eq (root : List String) :
    outputDir root = root ++ ["generated_images"] := by
  unfold outputDir ttiFile parentDir
  have : root ++ ["task", "text_to_image", "task_tti.py"] =
      ((root ++ ["task"]) ++ ["text_to_image"]) ++ ["task_tti.py"] := by
    simp
  rw [this]
  simp

/-!  ## Substring matching and extension inference

Python `sub in s` is substring containment; `task_tti.py` lines 57-66 infer
the output file extension from the attachment MIME type by substring
matching with a fixed priority. -/

/-- `strStartsWith s pre` is true when `pre` is a prefix of `s`. -/
def strStartsWith : List Char → List Char → Bool
  | _, [] => true
  | [], _ :: _ => false
  | a :: as, b :: bs => a == b && strStartsWith as bs

/-- Python substring containment `sub in s` on character lists. -/
def strContains : List Char → List Char → Bool
  | [], sub => sub.isEmpty
  | c :: rest, sub => strStartsWith (c :: rest) sub || strContains rest sub

/-- Extension inference of `task_tti.py` lines 56-66: default `png`; when
the attachment type is truthy, a type containing `jpeg` or `jpg` gives
`jpg`, otherwise one containing `png` gives `png`, otherwise one containing
`webp` gives `webp`, otherwise the default `png` stands. -/
def fileExtension (ty : Option String) : String :=
  match ty with
  | none => "png"
  | some t =>
    if t = "" then "png"
    else if strContains t.data ("jpeg".data) || strContains t.data ("jpg".data) then "jpg"
    else if strContains t.data ("png".data) then "png"
    else if strContains t.data ("webp".data) then "webp"
    else "png"

/-- True when the type string contains any of the four format substrings the
source tests for. -/
def mentionsKnownImageFormat (t : String) : Bool :=
  strContains t.data ("jpeg".data) || strContains t.data ("jpg".data) ||
    strContains t.data ("png".data) || strContains t.data ("webp".data)

/-!  ## Generated-image persistence (`_save_images`, `task_tti.py` 39-82) -/

/-- Environment of one `_save_images` run: outcome of each bucket download
(by URL) and the timestamp string `datetime.now().strftime(...)` observed at
loop iteration `i`. -/
structure SaveEnv where
  getFile : String → Except String (List Nat)
  timestamp : Nat → String

/-- Observable events of `_save_images` (its console prints and filesystem
actions). -/
inductive SaveEvent
  | mkdirOutput (dir : List String)
  | downloading (index : Nat) (title : String)
  | saved (index : Nat) (path : List String) (size : Nat)
  | downloadFailed (index : Nat) (err : String)
  | skippedNoUrl (index : Nat)
deriving DecidableEq

/-- Loop body of `_save_images` for index `i` and one attachment: a truthy
URL leads to a download attempt (wrapped in try/except), a falsy URL is
skipped with a warning.  Returns the events printed, the files written
(path, bytes) and the download calls issued. -/
def saveStep (env : SaveEnv) (dir : List String) (i : Nat) (a : Attachment) :
    List SaveEvent × List (List String × List Nat) × List String :=
  match a.url with
  | some u =>
    if u = "" then ([SaveEvent.skippedNoUrl i], [], [])
    else
      match env.getFile u with
      | Except.ok bytes =>
        let filename := "generated_image_" ++ env.timestamp i ++ "_" ++
          toString (i + 1) ++ "." ++ fileExtension a.type
        ([SaveEvent.downloading i (if truthy a.title then a.title.getD "" else "untitled"),
          SaveEvent.saved i (dir ++ [filename]) bytes.length],
         [(dir ++ [filename], bytes)], [u])
      | Except.error e =>
        ([SaveEvent.downloading i (if truthy a.title then a.title.getD "" else "untitled"),
          SaveEvent.downloadFailed i e], [], [u])
  | none => ([SaveEvent.skippedNoUrl i], [], [])

/-- `_save_images` (`task_tti.py` 39-82): create the output directory, then
process every attachment of the batch in order, each one independently. -/
def _save_images (env : SaveEnv) (root : List String) (atts : List Attachment) :
    List SaveEvent × List (List String × List Nat) × List String :=
  let dir := outputDir root
  let steps := atts.enum.map (fun p => saveStep env dir p.1 p.2)
  (SaveEvent.mkdirOutput dir :: (steps.map (fun s => s.1)).flatten,
   (steps.map (fun s => s.2.1)).flatten,
   (steps.map (fun s => s.2.2)).flatten)

/-!  ## Base64 and the inline image data URL
(`task_openai_itt.py` lines 14-36)

`base64.b64encode` is the Python standard library; it is not repository
code, so it is modelled here by the standard RFC 4648 base64 alphabet with
`=` padding, operating on byte values (naturals below 256). -/

/-- The standard base64 alphabet. -/
def b64Alphabet : List Char :=
  "ABCDEFGHIJKLMNOPQRSTUVWXYZabcdefghijklmnopqrstuvwxyz0123456789+/".data

/-- Character of a sextet value. -/
def b64Char (n : Nat) : Char := b64Alphabet.getD n 'A'

/-- Sextet value of an alphabet character. -/
def b64Index (c : Char) : Option Nat := b64Alphabet.findIdx? (fun x => x == c)

/-- Standard base64 encoding of a byte list (Python `base64.b64encode`):
groups of three bytes become four alphabet characters; a trailing group of
one or two bytes is padded with `=`. -/
def b64encode : List Nat → List Char
  | [] => []
  | [a] => [b64Char (a / 4), b64Char (a % 4 * 16), '=', '=']
  | [a, b] => [b64Char (a / 4), b64Char (a % 4 * 16 + b / 16), b64Char (b % 16 * 4), '=']
  | a :: b :: c :: rest =>
    b64Char (a / 4) :: b64Char (a % 4 * 16 + b / 16) :: b64Char (b % 16 * 4 + c / 64) ::
      b64Char (c % 64) :: b64encode rest

/-- Modelled from the spec: base64 decoding of the payload (the decoding
direction of the round-trip law; the source only encodes).  Inverse of
`b64encode`: four characters decode to three bytes, a final `=`-padded
group to one or two. -/
def b64decode : List Char → Option (List Nat)
  | [] => some []
  | c1 :: c2 :: c3 :: c4 :: rest =>
    match b64Index c1, b64Index c2 with
    | some n1, some n2 =>
      if c3 = '=' then
        if c4 = '=' ∧ rest = [] then some [n1 * 4 + n2 / 16] else none
      else
        match b64Index c3 with
        | some n3 =>
          if c4 = '=' then
            if rest = [] then some [n1 * 4 + n2 / 16, n2 % 16 * 16 + n3 / 4] else none
          else
            match b64Index c4, b64decode rest with
            | some n4, some tail =>
              some ((n1 * 4 + n2 / 16) :: (n2 % 16 * 16 + n3 / 4) :: (n3 % 4 * 64 + n4) :: tail)
            | _, _ => none
        | none => none
    | _, _ => none
  | _ => none

/-- The inline image reference of `task_openai_itt.py` lines 16 and 28:
base64-encode the raw bytes and wrap them as a data URL.  The source
instantiates the MIME subtype with `png`; the spec states the round-trip
law for the subtypes `png`, `jpeg` and `webp`, so the subtype is a
parameter here. -/
def inlineImageDataUrl (subtype : String) (bytes : List Nat) : List Char :=
  ("data:image/" ++ subtype ++ ";base64,").data ++ b64encode bytes

/-- Everything after the first comma of a character list. -/
def afterComma : List Char → List Char
  | [] => []
  | c :: rest => if c = ',' then rest else afterComma rest

/-- Modelled from the spec: decoding the base64 payload of a data URL (the
decoder itself is not part of the source; the spec round-trip law names
it): take the characters after the `base64,` marker, which is everything
after the first comma, and base64-decode them. -/
def decodeDataUrlPayload (u : List Char) : Option (List Nat) :=
  b64decode (afterComma u)

theorem b64Index_b64Char : ∀ n : Fin 64, b64Index (b64Char n.val) = some n.val := by
  decide

theorem b64Char_ne_eq : ∀ n : Fin 64, b64Char n.val ≠ '=' := by
  decide

/-- Decoding inverts encoding on byte lists. -/
theorem b64decode_b64encode :
    ∀ l : List Nat, (∀ x ∈ l, x < 256) → b64decode (b64encode l) = some l
  | [], _ => rfl
  | [a], h => by
    have ha : a < 256 := h a (by simp)
    have h1 : b64Index (b64Char (a / 4)) = some (a / 4) :=
      b64Index_b64Char ⟨a / 4, by omega⟩
    have h2 : b64Index (b64Char (a % 4 * 16)) = some (a % 4 * 16) :=
      b64Index_b64Char ⟨a % 4 * 16, by omega⟩
    simp [b64encode, b64decode, h1, h2]
    omega
  | [a, b], h => by
    have ha : a < 256 := h a (by simp)
    have hb : b < 256 := h b (by simp)
    have h1 : b64Index (b64Char (a / 4)) = some (a / 4) :=
      b64Index_b64Char ⟨a / 4, by omega⟩
    have h2 : b64Index (b64Char (a % 4 * 16 + b / 16)) = some (a % 4 * 16 + b / 16) :=
      b64Index_b64Char ⟨a % 4 * 16 + b / 16, by omega⟩
    have h3 : b64Index (b64Char (b % 16 * 4)) = some (b % 16 * 4) :=
      b64Index_b64Char ⟨b % 16 * 4, by omega⟩
    have hne : b64Char (b % 16 * 4) ≠ '=' := b64Char_ne_eq ⟨b % 16 * 4, by omega⟩
    simp [b64encode, b64decode, h1, h2, h3, hne]
    omega
  | a :: b :: c :: rest, h => by
    have ha : a < 256 := h a (by simp)
    have hb : b < 256 := h b (by simp)
    have hc : c < 256 := h c (by simp)
    have htail : b64decode (b64encode rest) = some rest :=
      b64decode_b64encode rest (fun x hx => h x (by simp [hx]))
    have h1 : b64Index (b64Char (a / 4)) = some (a / 4) :=
      b64Index_b64Char ⟨a / 4, by omega⟩
    have h2 : b64Index (b64Char (a % 4 * 16 + b / 16)) = some (a % 4 * 16 + b / 16) :=
      b64Index_b64Char ⟨a % 4 * 16 + b / 16, by omega⟩
    have h3 : b64Index (b64Char (b % 16 * 4 + c / 64)) = some (b % 16 * 4 + c / 64) :=
      b64Index_b64Char ⟨b % 16 * 4 + c / 64, by omega⟩
    have h4 : b64Index (b64Char (c % 64)) = some (c % 64) :=
      b64Index_b64Char ⟨c % 64, by omega⟩
    have hne3 : b64Char (b % 16 * 4 + c / 64) ≠ '=' := b64Char_ne_eq ⟨b % 16 * 4 + c / 64, by omega⟩
    have hne4 : b64Char (c % 64) ≠ '=' := b64Char_ne_eq ⟨c % 64, by omega⟩
    simp [b64encode, b64decode, h1, h2, h3, h4, hne3, hne4, htail]
    omega

/-!  ## Image-to-text workflow (`task_dial_itt.py`)

The environment supplies the outcome of each network call in program
order: `putFile n` is the result of the n-th bucket upload (the transport
may fail, or return a result map whose `url` key may be absent), and
`completion n` is the result of the n-th `get_completion` call (0 = the
main gpt-4o analysis, 1-3 = the three models of the comparison loop,
4 = the multi-image call). -/

/-- Connection lifecycle events of the bucket client. -/
inductive ConnEvent
  | opened
  | closed
deriving DecidableEq

/-- The `async with DialBucketClient(...)` bracket: the body runs between
opening and closing the connection, and `__aexit__` closes it whether the
body returns normally or raises. -/
def withBucketClient {A : Type} (body : Except String A) :
    Except String A × List ConnEvent :=
  match body with
  | Except.ok a => (Except.ok a, [ConnEvent.opened, ConnEvent.closed])
  | Except.error e => (Except.error e, [ConnEvent.opened, ConnEvent.closed])

/-- Body of `_put_image` (`task_dial_itt.py` 13-41) given the result of
`bucket_client.put_file`: read `url` from the upload result, raise
(`ValueError`) if it is falsy, otherwise build the attachment from the
file name, the returned URL and the MIME type. -/
def put_image_body (uploadResult : Except String (Option String)) :
    Except String Attachment :=
  match uploadResult with
  | Except.error e => Except.error e
  | Except.ok r =>
    match r with
    | none => Except.error "No URL returned from file upload"
    | some file_url =>
      if file_url = "" then Except.error "No URL returned from file upload"
      else Except.ok { title := some "dialx-banner.png", url := some file_url,
                       type := some "image/png" }

/-- `_put_image` (`task_dial_itt.py` 13-41): the body above run inside the
scoped bucket-client connection. -/
def put_image (uploadResult : Except String (Option String)) :
    Except String Attachment × List ConnEvent :=
  withBucketClient (put_image_body uploadResult)

/-- Environment of one run of the image-to-text workflow. -/
structure ITTEnv where
  putFile : Nat → Except String (Option String)
  completion : Nat → Except String Response

/-- Observable events (console prints) of the image-to-text workflow. -/
inductive ITTEvent
  | uploaded (att : Attachment)
  | analysisOk (content : String)
  | analysisErr (err : String)
  | modelOk (model : String) (content : String)
  | modelErr (model : String) (err : String)
  | multiOk (content : String)
  | multiErr (err : String)
deriving DecidableEq

/-- The three models of the comparison loop (`task_dial_itt.py` 83-87). -/
def modelsToTest : List String :=
  ["gpt-4o-mini", "claude-3-5-sonnet-20241022", "gemini-1.5-pro-002"]

/-- One iteration of the comparison loop (`task_dial_itt.py` 89-108): the
completion call is inside try/except, so its outcome becomes a success or
failure print for that model. -/
def modelTestEvent (model : String) (r : Except String Response) : ITTEvent :=
  match r with
  | Except.ok resp => ITTEvent.modelOk model resp.content
  | Except.error e => ITTEvent.modelErr model e

/-- The multi-image step (`task_dial_itt.py` 110-129): a second upload and
a completion call, both inside one try/except. -/
def multiImageStep (env : ITTEnv) : ITTEvent :=
  match (put_image (env.putFile 1)).1 with
  | Except.error e => ITTEvent.multiErr e
  | Except.ok _ =>
    match env.completion 4 with
    | Except.ok resp => ITTEvent.multiOk resp.content
    | Except.error e => ITTEvent.multiErr e

/-- `async_start` (`task_dial_itt.py` 44-129).  The initial upload at line
54 is not wrapped in any try/except: its failure propagates out of the
coroutine.  The main analysis call, each loop iteration and the
multi-image block are each wrapped, so their failures only produce error
prints. -/
def async_start_itt (env : ITTEnv) : Except String (List ITTEvent) :=
  match (put_image (env.putFile 0)).1 with
  | Except.error e => Except.error e
  | Except.ok att =>
    let analysis :=
      match env.completion 0 with
      | Except.ok resp => ITTEvent.analysisOk resp.content
      | Except.error e => ITTEvent.analysisErr e
    let modelEvents :=
      modelsToTest.enum.map (fun p => modelTestEvent p.2 (env.completion (p.1 + 1)))
    Except.ok ([ITTEvent.uploaded att, analysis] ++ modelEvents ++ [multiImageStep env])

/-- `start` (`task_dial_itt.py` 132-134): `asyncio.run(async_start())`
re-raises whatever the coroutine raises. -/
def start_itt (env : ITTEnv) : Except String (List ITTEvent) := async_start_itt env

/-- Exit status of the process: the module calls `start()` at top level
(`task_dial_itt.py` 137), so an uncaught exception ends the process with a
nonzero status, and a normal return exits zero. -/
def exitCode_itt (env : ITTEnv) : Nat :=
  match start_itt env with
  | Except.ok _ => 0
  | Except.error _ => 1

/-!  ## Text-to-image workflow (`task_tti.py`) -/

/-- A custom-field value: the workflow dictionaries hold strings, integers
and one decimal literal (`guidanceScale: 7.5`, represented exactly as
`mantissa * 10 ^ exponent`). -/
inductive FieldValue
  | s (v : String)
  | i (v : Int)
  | dec (mantissa : Int) (exponent : Int)
deriving DecidableEq

/-- `Size` constants (`task_tti.py` 12-18). -/
def Size.square : String := "1024x1024"

def Size.height_rectangle : String := "1024x1792"

def Size.width_rectangle : String := "1792x1024"

/-- `Style` constants (`task_tti.py` 21-28). -/
def Style.natural : String := "natural"

def Style.vivid : String := "vivid"

/-- `Quality` constants (`task_tti.py` 31-37). -/
def Quality.standard : String := "standard"

def Quality.hd : String := "hd"

/-- The `custom_fields` dictionary of the enhanced generation
(`task_tti.py` 121-126). -/
def custom_fields : List (String × FieldValue) :=
  [("size", FieldValue.s Size.width_rectangle),
   ("style", FieldValue.s Style.vivid),
   ("quality", FieldValue.s Quality.hd),
   ("n", FieldValue.i 1)]

/-- The `google_custom_fields` dictionary (`task_tti.py` 167-171). -/
def google_custom_fields : List (String × FieldValue) :=
  [("aspectRatio", FieldValue.s "16:9"),
   ("seed", FieldValue.i 42),
   ("guidanceScale", FieldValue.dec 75 (-1))]

/-- The `style_custom_fields` dictionary built in each iteration of the
variations loop (`task_tti.py` 202-206). -/
def style_custom_fields (style : String) : List (String × FieldValue) :=
  [("size", FieldValue.s Size.square),
   ("style", FieldValue.s style),
   ("quality", FieldValue.s Quality.hd)]

/-- The `styles_to_test` pairs (`task_tti.py` 194-197). -/
def stylesToTest : List (String × String) :=
  [("natural", "A peaceful morning in Bali with soft natural lighting"),
   ("vivid", "A dramatic and vibrant Bali landscape with intense colors")]

/-- The messages the workflow builds (`task_tti.py` 96-99, 128-131,
161-164). -/
def message_tti : Message := { role := Role.user, content := "Sunny day on Bali" }

def enhanced_message : Message :=
  { role := Role.user,
    content := "A breathtaking sunset over rice terraces in Bali, with traditional temples in the background, golden hour lighting, ultra-detailed, cinematic composition" }

def google_message : Message :=
  { role := Role.user,
    content := "A serene beach scene in Bali with crystal clear turquoise water, white sand, palm trees swaying in the breeze, and a traditional Balinese boat in the distance" }

/-- One `get_completion` invocation as issued by the workflow: the target
deployment, the message list, and the custom-fields map exactly as passed
(`none` when the parameter is not given). -/
structure CompletionCall where
  deployment : String
  messages : List Message
  custom_fields : Option (List (String × FieldValue))
deriving DecidableEq

/-- Environment of one run of the text-to-image workflow: the outcome of
the n-th `get_completion` call (0 = plain, 1 = enhanced, 2 = Google,
3-4 = the variations loop) plus the download/timestamp environment used by
`_save_images`. -/
structure TTIEnv where
  completion : Nat → Except String Response
  getFile : String → Except String (List Nat)
  timestamp : Nat → String

/-- Observable events of the text-to-image workflow. -/
inductive TTIEvent
  | genOk (content : String)
  | genErr (err : String)
  | noAttachments
  | save (e : SaveEvent)
deriving DecidableEq

/-- Result handling of one generation block (`task_tti.py` 101-114,
133-148, 173-188): the call is inside try/except; on success, attachments
(when the custom content and its list are truthy) are persisted with
`_save_images`. -/
def generationStep (env : TTIEnv) (root : List String) (callIndex : Nat) : List TTIEvent :=
  match env.completion callIndex with
  | Except.ok resp =>
    match resp.custom_content with
    | some cc =>
      if cc.attachments = [] then [TTIEvent.genOk resp.content, TTIEvent.noAttachments]
      else TTIEvent.genOk resp.content ::
        ((_save_images { getFile := env.getFile, timestamp := env.timestamp }
          root cc.attachments).1.map TTIEvent.save)
    | none => [TTIEvent.genOk resp.content, TTIEvent.noAttachments]
  | Except.error e => [TTIEvent.genErr e]

/-- Result handling of one variations-loop iteration (`task_tti.py`
213-224): like `generationStep` but nothing is printed when no attachments
come back. -/
def styleStep (env : TTIEnv) (root : List String) (callIndex : Nat) : List TTIEvent :=
  match env.completion callIndex with
  | Except.ok resp =>
    match resp.custom_content with
    | some cc =>
      if cc.attachments = [] then []
      else (_save_images { getFile := env.getFile, timestamp := env.timestamp }
        root cc.attachments).1.map TTIEvent.save
    | none => []
  | Except.error e => [TTIEvent.genErr e]

/-- `async_start` (`task_tti.py` 85-224): five completion calls are always
issued, in program order, each with the message and custom-fields map
built just before it; every call and its result handling sit inside their
own try/except, so the function always runs to completion. -/
def async_start_tti (env : TTIEnv) (root : List String) :
    List CompletionCall × List TTIEvent :=
  let calls :=
    [{ deployment := "dall-e-3", messages := [message_tti], custom_fields := none },
     { deployment := "dall-e-3", messages := [enhanced_message],
       custom_fields := some custom_fields },
     { deployment := "imagegeneration@005", messages := [google_message],
       custom_fields := some google_custom_fields }]
    ++ stylesToTest.enum.map (fun p =>
      { deployment := "dall-e-3",
        messages := [{ role := Role.user, content := p.2.2 }],
        custom_fields := some (style_custom_fields p.2.1) })
  let events :=
    generationStep env root 0 ++ generationStep env root 1 ++ generationStep env root 2
      ++ (stylesToTest.enum.map (fun p => styleStep env root (p.1 + 3))).flatten
  (calls, events)

/-!  ## Module top level (`start()` at import)

Each script module is modelled by its list of top-level statements, read
off the source files. -/

/-- A Python top-level statement, as far as the claims need it. -/
inductive TopLevelStmt
  | importFrom (moduleName : String) (names : List String)
  | classDecl (name : String)
  | defDecl (name : String)
  | callExpr (functionName : String)
deriving DecidableEq

/-- Top-level statements of `task/image_to_text/task_dial_itt.py`. -/
def task_dial_itt_module : List TopLevelStmt :=
  [TopLevelStmt.importFrom "asyncio" [],
   TopLevelStmt.importFrom "io" ["BytesIO"],
   TopLevelStmt.importFrom "pathlib" ["Path"],
   TopLevelStmt.importFrom "task._models.custom_content" ["Attachment", "CustomContent"],
   TopLevelStmt.importFrom "task._utils.constants" ["API_KEY", "DIAL_URL", "DIAL_CHAT_COMPLETIONS_ENDPOINT"],
   TopLevelStmt.importFrom "task._utils.bucket_client" ["DialBucketClient"],
   TopLevelStmt.importFrom "task._utils.model_client" ["DialModelClient"],
   TopLevelStmt.importFrom "task._models.message" ["Message"],
   TopLevelStmt.importFrom "task._models.role" ["Role"],
   TopLevelStmt.defDecl "_put_image",
   TopLevelStmt.defDecl "async_start",
   TopLevelStmt.defDecl "start",
   TopLevelStmt.callExpr "start"]

/-- Top-level statements of `task/text_to_image/task_tti.py`. -/
def task_tti_module : List TopLevelStmt :=
  [TopLevelStmt.importFrom "asyncio" [],
   TopLevelStmt.importFrom "datetime" ["datetime"],
   TopLevelStmt.importFrom "pathlib" ["Path"],
   TopLevelStmt.importFrom "task._models.custom_content" ["Attachment"],
   TopLevelStmt.importFrom "task._utils.constants" ["API_KEY", "DIAL_URL", "DIAL_CHAT_COMPLETIONS_ENDPOINT"],
   TopLevelStmt.importFrom "task._utils.bucket_client" ["DialBucketClient"],
   TopLevelStmt.importFrom "task._utils.model_client" ["DialModelClient"],
   TopLevelStmt.importFrom "task._models.message" ["Message"],
   TopLevelStmt.importFrom "task._models.role" ["Role"],
   TopLevelStmt.classDecl "Size",
   TopLevelStmt.classDecl "Style",
   TopLevelStmt.classDecl "Quality",
   TopLevelStmt.defDecl "_save_images",
   TopLevelStmt.defDecl "async_start",
   TopLevelStmt.defDecl "start",
   TopLevelStmt.callExpr "start"]

/-- Top-level statements of `task/image_to_text/openai/task_openai_itt.py`:
the file defines `start` and ends at line 66 without ever calling it. -/
def task_openai_itt_module : List TopLevelStmt :=
  [TopLevelStmt.importFrom "base64" [],
   TopLevelStmt.importFrom "pathlib" ["Path"],
   TopLevelStmt.importFrom "task._utils.constants" ["API_KEY", "DIAL_CHAT_COMPLETIONS_ENDPOINT"],
   TopLevelStmt.importFrom "task._utils.model_client" ["DialModelClient"],
   TopLevelStmt.importFrom "task._models.role" ["Role"],
   TopLevelStmt.importFrom "task.image_to_text.openai.message" ["ContentedMessage", "TxtContent", "ImgContent", "ImgUrl"],
   TopLevelStmt.defDecl "start"]

/-- Whether a module runs `start()` as a top-level statement. -/
def invokesStartAtTopLevel (m : List TopLevelStmt) : Bool :=
  m.contains (TopLevelStmt.callExpr "start")

/-!  ## Concrete inputs used by counterexamples and witnesses -/

/-- A concrete checkout location. -/
def rootCE : List String := ["home", "user", "ai-dial-content-generation"]

/-- A download environment where every download succeeds with three bytes
and the clock reads a fixed timestamp. -/
def envSaveA : SaveEnv :=
  { getFile := fun _ => Except.ok [1, 2, 3], timestamp := fun _ => "20250101_000000" }

/-- A generated attachment with a valid URL and MIME type `image/png`. -/
def attPngA : Attachment :=
  { title := some "a", url := some "files/a.png", type := some "image/png" }

/-- A generated attachment with an empty URL and MIME type `image/jpeg`. -/
def attJpegNoUrl : Attachment :=
  { title := some "b", url := some "", type := some "image/jpeg" }

/-- A generated attachment whose declared type `image/jpg` is none of the
three MIME types the spec lists. -/
def attJpgCE : Attachment :=
  { title := some "t", url := some "files/x", type := some "image/jpg" }

/-- An upload environment where every bucket upload fails in transport. -/
def envUploadFail : ITTEnv :=
  { putFile := fun _ => Except.error "upload failed",
    completion := fun _ => Except.ok { content := "ok" } }

/-- An environment where uploads succeed but every completion call fails. -/
def envUploadOk : ITTEnv :=
  { putFile := fun _ => Except.ok (some "files/bucket/dialx-banner.png"),
    completion := fun _ => Except.error "completion failed" }

/-- An environment where the second model of the comparison loop fails and
everything else succeeds. -/
def envOneModelFails : ITTEnv :=
  { putFile := fun _ => Except.ok (some "files/bucket/dialx-banner.png"),
    completion := fun n =>
      if n = 2 then Except.error "model overloaded"
      else Except.ok { content := "a banner" } }

/-!  ## Helper lemmas -/

theorem saveStep_files_shape (env : SaveEnv) (dir : List String) (i : Nat)
    (a : Attachment) :
    ∀ f ∈ (saveStep env dir i a).2.1, ∃ nm bytes, f = (dir ++ [nm], bytes) := by
  intro f hf
  obtain ⟨ti, url, ty⟩ := a
  rcases url with _ | u
  · simp [saveStep] at hf
  · by_cases hu : u = ""
    · simp [saveStep, hu] at hf
    · rcases hg : env.getFile u with e | bytes
      · simp [saveStep, hu, hg] at hf
      · simp [saveStep, hu, hg] at hf
        exact ⟨_, bytes, hf⟩

theorem saveStep_events_mem_save_images (env : SaveEnv) (root : List String)
    (atts : List Attachment) (i : Nat) (a : Attachment)
    (h : atts[i]? = some a) :
    ∀ e ∈ (saveStep env (outputDir root) i a).1, e ∈ (_save_images env root atts).1 := by
  intro e he
  simp only [_save_images]
  refine List.mem_cons.mpr (Or.inr ?_)
  rw [List.mem_flatten]
  refine ⟨(saveStep env (outputDir root) i a).1, ?_, he⟩
  rw [List.mem_map]
  refine ⟨saveStep env (outputDir root) i a, ?_, rfl⟩
  rw [List.mem_map]
  exact ⟨(i, a), List.mk_mem_enum_iff_getElem?.mpr h, rfl⟩

theorem put_image_of_url (u : String) (hu : u ≠ "") :
    put_image (Except.ok (some u)) =
      (Except.ok { title := some "dialx-banner.png", url := some u,
                   type := some "image/png" },
       [ConnEvent.opened, ConnEvent.closed]) := by
  simp [put_image, put_image_body, withBucketClient, hu]

/-!  ## Claim C1 -/

/-- Claim C1 as stated is false: in the environment where the bucket upload
fails, the image-to-text workflow does not run to completion — the initial
upload at `task_dial_itt.py` line 54 is not wrapped in any try/except, so
the exception propagates through `asyncio.run` and the module-level
`start()` call, and the process exits nonzero. -/
theorem C1_counterexample :
    async_start_itt envUploadFail = Except.error "upload failed" ∧
      exitCode_itt envUploadFail ≠ 0 := by
  constructor
  · rfl
  · decide

/-- Claim C1 (amended): completion-call failures, download failures and a
failure of the second upload are all caught and logged at their step, so
whenever the initial upload yields a URL the workflow runs to completion
and exits zero no matter which other steps fail; but a failure of the
initial upload itself terminates the workflow. -/
theorem C1_amended_resilience :
    ∀ (env : ITTEnv) (u : String),
      env.putFile 0 = Except.ok (some u) → u ≠ "" →
      (∃ log, async_start_itt env = Except.ok log) ∧ exitCode_itt env = 0 := by
  intro env u h hu
  have hput : (put_image (env.putFile 0)).1 =
      Except.ok { title := some "dialx-banner.png", url := some u,
                  type := some "image/png" } := by
    rw [h, put_image_of_url u hu]
  constructor
  · exact ⟨_, by unfold async_start_itt; rw [hput]⟩
  · unfold exitCode_itt start_itt async_start_itt
    rw [hput]

/-- Witness for C1: in the environment where the upload succeeds but every
completion call fails, the process still exits zero. -/
theorem C1_witness : exitCode_itt envUploadOk = 0 :=
  (C1_amended_resilience envUploadOk "files/bucket/dialx-banner.png" rfl (by decide)).2

/-!  ## Claim C4 -/

/-- Claim C4: `_put_image` fails fast (raising `ValueError`) whenever the
upload result carries no URL or an empty one, so every attachment it
returns has a truthy URL; on success the attachment carries the original
file name as title, the returned URL, and the supplied MIME type; and the
bucket connection is opened and then closed on every exit path. -/
theorem C4_upload_fail_fast :
    ∀ r : Except String (Option String),
      (put_image r).2 = [ConnEvent.opened, ConnEvent.closed] ∧
      (∀ a, (put_image r).1 = Except.ok a →
        truthy a.url = true ∧ a.title = some "dialx-banner.png" ∧
          a.type = some "image/png") ∧
      ((r = Except.ok none ∨ r = Except.ok (some "")) →
        (put_image r).1 = Except.error "No URL returned from file upload") ∧
      (∀ u, u ≠ "" → r = Except.ok (some u) →
        (put_image r).1 =
          Except.ok { title := some "dialx-banner.png", url := some u,
                      type := some "image/png" }) := by
  intro r
  refine ⟨?_, ?_, ?_, ?_⟩
  · unfold put_image withBucketClient
    cases put_image_body r <;> rfl
  · intro a ha
    unfold put_image withBucketClient at ha
    rcases hb : put_image_body r with e | a2 <;> rw [hb] at ha
    · exact absurd ha (by simp)
    · simp only at ha
      rw [Except.ok.injEq] at ha
      subst ha
      rcases r with e | o
      · simp [put_image_body] at hb
      · rcases o with _ | u
        · simp [put_image_body] at hb
        · by_cases hu : u = ""
          · simp [put_image_body, hu] at hb
          · simp [put_image_body, hu] at hb
            subst hb
            exact ⟨by simp [truthy, hu], rfl, rfl⟩
  · rintro (h | h) <;> subst h <;> rfl
  · intro u hu h
    subst h
    rw [put_image_of_url u hu]

/-- Witness for C4: a successful upload result yields the attachment with
the file name, URL and MIME type; a result map without a URL raises. -/
theorem C4_witness :
    (put_image (Except.ok (some "files/bucket/dialx-banner.png"))).1 =
      Except.ok { title := some "dialx-banner.png",
                  url := some "files/bucket/dialx-banner.png",
                  type := some "image/png" } ∧
    (put_image (Except.ok none)).1 =
      Except.error "No URL returned from file upload" :=
  ⟨(C4_upload_fail_fast (Except.ok (some "files/bucket/dialx-banner.png"))).2.2.2
      "files/bucket/dialx-banner.png" (by decide) rfl,
   (C4_upload_fail_fast (Except.ok none)).2.2.1 (Or.inl rfl)⟩

/-!  ## Claim C8 -/

/-- Claim C8 as stated is false: `task_openai_itt.py` defines `start` at
top level but never invokes it, so not every workflow module triggers its
workflow as a load side effect. -/
theorem C8_counterexample :
    invokesStartAtTopLevel task_openai_itt_module = false ∧
      TopLevelStmt.defDecl "start" ∈ task_openai_itt_module := by
  decide

/-- Claim C8 (amended): two of the three workflow modules —
`task_dial_itt.py` and `task_tti.py` — invoke `start()` at module top
level; `task_openai_itt.py` only defines `start` without invoking it. -/
theorem C8_amended_start_at_import :
    invokesStartAtTopLevel task_dial_itt_module = true ∧
      invokesStartAtTopLevel task_tti_module = true ∧
      invokesStartAtTopLevel task_openai_itt_module = false := by
  decide

/-!  ## Claim C9 -/

/-- Claim C9 as stated is false: at a concrete checkout location the
generated-image output directory is a direct child of the project root
(its parent IS the project root), not a sibling of it (they do not share a
parent). -/
theorem C9_counterexample :
    parentDir (outputDir rootCE) = project_root rootCE ∧
      ¬ siblingOf (outputDir rootCE) (project_root rootCE) := by
  constructor
  · decide
  · intro h
    unfold siblingOf at h
    exact absurd h (by decide)

/-- Claim C9 (amended): the output directory is named `generated_images`,
is a direct child of the project root, is created (if absent) before any
image is written — the mkdir event heads the event list of every
`_save_images` run — and every file the workflow persists lies directly
inside it. -/
theorem C9_amended_output_dir :
    ∀ (env : SaveEnv) (root : List String) (atts : List Attachment),
      outputDir root = project_root root ++ ["generated_images"] ∧
      (∃ tail, (_save_images env root atts).1 =
        SaveEvent.mkdirOutput (outputDir root) :: tail) ∧
      (∀ f ∈ (_save_images env root atts).2.1, parentDir f.1 = outputDir root) := by
  intro env root atts
  refine ⟨by rw [outputDir_eq, project_root_eq], ⟨_, rfl⟩, ?_⟩
  intro f hf
  simp only [_save_images] at hf
  rw [List.mem_flatten] at hf
  obtain ⟨s, hs, hfs⟩ := hf
  rw [List.mem_map] at hs
  obtain ⟨st, hst, rfl⟩ := hs
  rw [List.mem_map] at hst
  obtain ⟨p, hp, rfl⟩ := hst
  obtain ⟨nm, bytes, rfl⟩ := saveStep_files_shape env (outputDir root) p.1 p.2 f hfs
  exact dropLast_append_singleton (outputDir root) nm

/-- Witness for C9: the one file written in a concrete run lies directly
inside the output directory. -/
theorem C9_witness :
    parentDir (outputDir rootCE ++ ["generated_image_20250101_000000_1.png"]) =
      outputDir rootCE :=
  (C9_amended_output_dir envSaveA rootCE [attPngA]).2.2
    (outputDir rootCE ++ ["generated_image_20250101_000000_1.png"], [1, 2, 3])
    (by decide)

/-!  ## Claim C2 -/

/-- Claim C2 as stated is false: an attachment with declared type
`image/jpg` — which is none of the three MIME types the claim lists, so
the claim demands the default `png` — is persisted with extension `jpg`,
because the source matches by substring. -/
theorem C2_counterexample :
    (saveStep envSaveA (outputDir rootCE) 0 attJpgCE).2.1 =
      [(outputDir rootCE ++ ["generated_image_20250101_000000_1.jpg"], [1, 2, 3])] ∧
    attJpgCE.type = some "image/jpg" ∧
    "image/jpg" ≠ "image/jpeg" ∧ "image/jpg" ≠ "image/png" ∧
    "image/jpg" ≠ "image/webp" ∧ ("jpg" : String) ≠ "png" := by
  refine ⟨by decide, rfl, by decide, by decide, by decide, by decide⟩

/-- Claim C2 (amended): every attachment persisted by the generated-image
workflow is written to exactly one file whose name is the capture
timestamp plus the sequential index plus the inferred extension; the
extension is `jpg` for `image/jpeg`, `png` for `image/png`, `webp` for
`image/webp` and `png` for an absent type or any type containing none of
the substrings `jpeg`, `jpg`, `png`, `webp` (type strings are matched by
substring, so for example `image/jpg` also yields `jpg`). -/
theorem C2_amended_extension_and_name :
    ∀ (env : SaveEnv) (dir : List String) (i : Nat) (a : Attachment)
      (u : String) (bytes : List Nat),
      a.url = some u → u ≠ "" → env.getFile u = Except.ok bytes →
      (saveStep env dir i a).2.1 =
        [(dir ++ ["generated_image_" ++ env.timestamp i ++ "_" ++
            toString (i + 1) ++ "." ++ fileExtension a.type], bytes)] ∧
      fileExtension (some "image/jpeg") = "jpg" ∧
      fileExtension (some "image/png") = "png" ∧
      fileExtension (some "image/webp") = "webp" ∧
      fileExtension none = "png" ∧
      (∀ t, mentionsKnownImageFormat t = false → fileExtension (some t) = "png") := by
  intro env dir i a u bytes hu hne hg
  refine ⟨?_, by decide, by decide, by decide, rfl, ?_⟩
  · obtain ⟨ti, url, ty⟩ := a
    have hu2 : url = some u := hu
    subst hu2
    simp [saveStep, hne, hg]
  · intro t ht
    unfold mentionsKnownImageFormat at ht
    simp only [Bool.or_eq_false_iff] at ht
    unfold fileExtension
    by_cases h0 : t = ""
    · simp [h0]
    · simp [h0, ht.1.1.1, ht.1.1.2, ht.1.2, ht.2]

/-- Witness for C2: a `image/png` attachment at index 0 is persisted to
exactly the timestamped `.png` file. -/
theorem C2_witness :
    (saveStep envSaveA (outputDir rootCE) 0 attPngA).2.1 =
      [(outputDir rootCE ++ ["generated_image_20250101_000000_1.png"], [1, 2, 3])] :=
  (C2_amended_extension_and_name envSaveA (outputDir rootCE) 0 attPngA
    "files/a.png" [1, 2, 3] rfl (by decide) rfl).1

/-!  ## Claim C3 -/

/-- Claim C3: in batch persistence, an attachment with a falsy URL is
skipped with a warning — no exception, no file, no download call — while
an attachment whose URL is non-empty and whose download succeeds produces
exactly one file; and every attachment of the batch contributes its events
to the run regardless of how the other attachments fare (the environment,
which fixes every other download outcome, is arbitrary). -/
theorem C3_batch_partial_success :
    ∀ (env : SaveEnv) (root : List String) (atts : List Attachment)
      (i : Nat) (a : Attachment),
      atts[i]? = some a →
      (truthy a.url = false →
        saveStep env (outputDir root) i a = ([SaveEvent.skippedNoUrl i], [], [])) ∧
      (∀ u bytes, a.url = some u → u ≠ "" → env.getFile u = Except.ok bytes →
        (saveStep env (outputDir root) i a).2.1 = [(outputDir root ++
          ["generated_image_" ++ env.timestamp i ++ "_" ++ toString (i + 1) ++ "." ++
            fileExtension a.type], bytes)]) ∧
      (∀ e ∈ (saveStep env (outputDir root) i a).1,
        e ∈ (_save_images env root atts).1) := by
  intro env root atts i a h
  refine ⟨?_, ?_, saveStep_events_mem_save_images env root atts i a h⟩
  · intro hfalsy
    obtain ⟨ti, url, ty⟩ := a
    rcases url with _ | u
    · rfl
    · simp only [truthy, Bool.not_eq_false'] at hfalsy
      rw [beq_iff_eq] at hfalsy
      simp [saveStep, hfalsy]
  · intro u bytes hu hne hg
    obtain ⟨ti, url, ty⟩ := a
    have hu2 : url = some u := hu
    subst hu2
    simp [saveStep, hne, hg]

/-- Witness for C3, the scenario of the spec: a batch of one `image/png`
attachment with a valid URL and one `image/jpeg` attachment with an empty
URL persists exactly one file and logs one skip. -/
theorem C3_witness :
    saveStep envSaveA (outputDir rootCE) 1 attJpegNoUrl =
      ([SaveEvent.skippedNoUrl 1], [], []) ∧
    (saveStep envSaveA (outputDir rootCE) 0 attPngA).2.1 =
      [(outputDir rootCE ++ ["generated_image_20250101_000000_1.png"], [1, 2, 3])] ∧
    SaveEvent.skippedNoUrl 1 ∈ (_save_images envSaveA rootCE [attPngA, attJpegNoUrl]).1 :=
  ⟨(C3_batch_partial_success envSaveA rootCE [attPngA, attJpegNoUrl] 1 attJpegNoUrl
      (by decide)).1 (by decide),
   (C3_batch_partial_success envSaveA rootCE [attPngA, attJpegNoUrl] 0 attPngA
      (by decide)).2.1 "files/a.png" [1, 2, 3] rfl (by decide) rfl,
   (C3_batch_partial_success envSaveA rootCE [attPngA, attJpegNoUrl] 1 attJpegNoUrl
      (by decide)).2.2 (SaveEvent.skippedNoUrl 1) (by decide)⟩

/-!  ## Claim C5 -/

/-- Claim C5: for each supported MIME subtype, building the inline image
reference (base64-encode and wrap as a data URL) and then decoding the
base64 payload of that data URL returns the original bytes. -/
theorem C5_inline_roundtrip :
    ∀ (subtype : String) (bytes : List Nat),
      (subtype = "png" ∨ subtype = "jpeg" ∨ subtype = "webp") →
      (∀ b ∈ bytes, b < 256) →
      decodeDataUrlPayload (inlineImageDataUrl subtype bytes) = some bytes := by
  intro subtype bytes hsub hb
  have hdec := b64decode_b64encode bytes hb
  rcases hsub with h | h | h <;> subst h <;> exact hdec

/-- Witness for C5: the PNG magic bytes survive the round trip. -/
theorem C5_witness :
    decodeDataUrlPayload (inlineImageDataUrl "png" [137, 80, 78, 71, 13, 10, 26, 10]) =
      some [137, 80, 78, 71, 13, 10, 26, 10] :=
  C5_inline_roundtrip "png" [137, 80, 78, 71, 13, 10, 26, 10] (Or.inl rfl) (by decide)

/-!  ## Claim C6 -/

/-- Claim C6: once the initial upload has succeeded, the workflow completes
and its log contains, for each of the three tested models, exactly the
event determined by that model's own completion outcome — so a failure of
any one model's call leaves the other models' calls executed and their
successful results reported. -/
theorem C6_model_loop_isolation :
    ∀ (env : ITTEnv) (u : String),
      env.putFile 0 = Except.ok (some u) → u ≠ "" →
      ∃ log, async_start_itt env = Except.ok log ∧
        (∀ i m, modelsToTest[i]? = some m →
          modelTestEvent m (env.completion (i + 1)) ∈ log) ∧
        (∀ i m resp, modelsToTest[i]? = some m →
          env.completion (i + 1) = Except.ok resp →
          ITTEvent.modelOk m resp.content ∈ log) := by
  intro env u h hu
  have hput : (put_image (env.putFile 0)).1 =
      Except.ok { title := some "dialx-banner.png", url := some u,
                  type := some "image/png" } := by
    rw [h, put_image_of_url u hu]
  refine ⟨_, by unfold async_start_itt; rw [hput], ?_, ?_⟩
  · intro i m hm
    match i, hm with
    | 0, hm =>
      rw [show modelsToTest[0]? = some "gpt-4o-mini" from rfl, Option.some.injEq] at hm
      subst hm
      simp [modelsToTest, List.enum, List.enumFrom]
    | 1, hm =>
      rw [show modelsToTest[1]? = some "claude-3-5-sonnet-20241022" from rfl,
        Option.some.injEq] at hm
      subst hm
      simp [modelsToTest, List.enum, List.enumFrom]
    | 2, hm =>
      rw [show modelsToTest[2]? = some "gemini-1.5-pro-002" from rfl,
        Option.some.injEq] at hm
      subst hm
      simp [modelsToTest, List.enum, List.enumFrom]
    | n + 3, hm =>
      rw [show modelsToTest[n + 3]? = none by simp [modelsToTest]] at hm
      exact absurd hm (by simp)
  · intro i m resp hm hc
    match i, hm with
    | 0, hm =>
      rw [show modelsToTest[0]? = some "gpt-4o-mini" from rfl, Option.some.injEq] at hm
      subst hm
      simp [modelsToTest, List.enum, List.enumFrom, modelTestEvent, hc]
    | 1, hm =>
      rw [show modelsToTest[1]? = some "claude-3-5-sonnet-20241022" from rfl,
        Option.some.injEq] at hm
      subst hm
      simp [modelsToTest, List.enum, List.enumFrom, modelTestEvent, hc]
    | 2, hm =>
      rw [show modelsToTest[2]? = some "gemini-1.5-pro-002" from rfl,
        Option.some.injEq] at hm
      subst hm
      simp [modelsToTest, List.enum, List.enumFrom, modelTestEvent, hc]
    | n + 3, hm =>
      rw [show modelsToTest[n + 3]? = none by simp [modelsToTest]] at hm
      exact absurd hm (by simp)

/-- Witness for C6: with the second model failing and the others
succeeding, the log reports both successes and the one failure. -/
theorem C6_witness :
    ∃ log, async_start_itt envOneModelFails = Except.ok log ∧
      ITTEvent.modelOk "gpt-4o-mini" "a banner" ∈ log ∧
      ITTEvent.modelErr "claude-3-5-sonnet-20241022" "model overloaded" ∈ log ∧
      ITTEvent.modelOk "gemini-1.5-pro-002" "a banner" ∈ log := by
  obtain ⟨log, hlog, hmem, _⟩ :=
    C6_model_loop_isolation envOneModelFails "files/bucket/dialx-banner.png" rfl (by decide)
  exact ⟨log, hlog, hmem 0 _ rfl, hmem 1 _ rfl, hmem 2 _ rfl⟩

/-!  ## Claim C7 -/

/-- Claim C7: whatever the environment (so regardless of any call
outcome), the five completion calls of the text-to-image workflow carry
exactly the custom-fields maps built just before them — `none` for the
plain call, the enhanced dictionary, the Google dictionary, and the two
per-style dictionaries — and those maps hold verbatim the literal keys and
values of the source. -/
theorem C7_custom_fields_verbatim :
    ∀ (env : TTIEnv) (root : List String),
      ((async_start_tti env root).1).map (fun c => (c.deployment, c.custom_fields)) =
        [("dall-e-3", none),
         ("dall-e-3", some custom_fields),
         ("imagegeneration@005", some google_custom_fields),
         ("dall-e-3", some (style_custom_fields "natural")),
         ("dall-e-3", some (style_custom_fields "vivid"))] ∧
      custom_fields =
        [("size", FieldValue.s "1792x1024"), ("style", FieldValue.s "vivid"),
         ("quality", FieldValue.s "hd"), ("n", FieldValue.i 1)] ∧
      google_custom_fields =
        [("aspectRatio", FieldValue.s "16:9"), ("seed", FieldValue.i 42),
         ("guidanceScale", FieldValue.dec 75 (-1))] ∧
      style_custom_fields Style.vivid =
        [("size", FieldValue.s "1024x1024"), ("style", FieldValue.s "vivid"),
         ("quality", FieldValue.s "hd")] := by
  intro env root
  exact ⟨rfl, rfl, rfl, rfl⟩

/-!  ## Claim C10 -/

/-- Claim C10: extension inference matches the attachment type by
substring with a fixed priority — any type containing `jpeg` or `jpg`
yields `jpg` (whatever else it contains), otherwise one containing `png`
yields `png`, otherwise one containing `webp` yields `webp`, otherwise
(including the empty and the absent type) the default is `png`. -/
theorem C10_substring_priority :
    ∀ t : String,
      ((strContains t.data ("jpeg".data) = true ∨ strContains t.data ("jpg".data) = true) →
        fileExtension (some t) = "jpg") ∧
      (strContains t.data ("jpeg".data) = false → strContains t.data ("jpg".data) = false →
        strContains t.data ("png".data) = true → fileExtension (some t) = "png") ∧
      (strContains t.data ("jpeg".data) = false → strContains t.data ("jpg".data) = false →
        strContains t.data ("png".data) = false → strContains t.data ("webp".data) = true →
        fileExtension (some t) = "webp") ∧
      (mentionsKnownImageFormat t = false → fileExtension (some t) = "png") ∧
      fileExtension none = "png" := by
  intro t
  by_cases h0 : t = ""
  · subst h0
    refine ⟨?_, ?_, ?_, fun _ => rfl, rfl⟩
    · intro h
      rcases h with h | h <;> exact absurd h (by decide)
    · intro _ _ _
      exact rfl
    · intro _ _ _ h4
      exact absurd h4 (by decide)
  · refine ⟨?_, ?_, ?_, ?_, rfl⟩
    · intro h
      have hcond : (strContains t.data ("jpeg".data) ||
          strContains t.data ("jpg".data)) = true := by
        rcases h with h | h <;> simp [h]
      simp [fileExtension, h0, hcond]
    · intro h1 h2 h3
      simp [fileExtension, h0, h1, h2, h3]
    · intro h1 h2 h3 h4
      simp [fileExtension, h0, h1, h2, h3, h4]
    · intro h
      unfold mentionsKnownImageFormat at h
      simp only [Bool.or_eq_false_iff] at h
      simp [fileExtension, h0, h.1.1.1, h.1.1.2, h.1.2, h.2]

/-- Witness for C10: a type containing both `jpg` and `webp` yields `jpg`
(the priority), not `webp` and not the default. -/
theorem C10_witness : fileExtension (some "image/jpg+webp") = "jpg" :=
  (C10_substring_priority "image/jpg+webp").1 (Or.inr (by decide))
